import Mathlib

/-!
# Verification of `cmd/in_memory/channel_dispatcher/main.go`

Shallow embedding of the in-memory channel dispatcher bootstrap
(`main.go` of the repository) together with spec-level models of the
library collaborators it wires together (the swappable routing handler,
the reconciliation controller), and proofs of the frozen claims about
startup/shutdown ordering, the structural controller-count invariant,
the swappable handler contract, reconciliation idempotence, fatal error
handling, logging-config selection, endpoint configuration and client
rate-limit scaling.
-/

namespace ChannelDispatcher

/-! ## Data model: routing tables

Modelled from the spec: a `RoutingTable` is an immutable mapping from
channel identifier to its subscriber/delivery configuration (spec §3);
the implementation behind `swappable.Handler` is not under `src/`, so
the table is represented as an association list keyed by channel id. -/

/-- Modelled from the spec: the subscriber/delivery configuration of one
channel — a list of subscriber endpoints (spec glossary: a channel is a
named message route with zero or more subscriber endpoints). -/
structure SubscriberConfig where
  endpoints : List String
  deriving DecidableEq, Repr

/-- Modelled from the spec: an immutable routing-table snapshot mapping
channel identifiers to subscriber configurations (spec §3, RoutingTable). -/
def RoutingTable := List (String × SubscriberConfig)
  deriving DecidableEq, Repr

/-- The table with zero channel entries. -/
def RoutingTable.empty : RoutingTable := []

/-- Number of channel entries in a table. -/
def RoutingTable.numChannels (t : RoutingTable) : Nat := List.length t

/-! ## Swappable routing handler

Modelled from the spec: `swappable.NewEmptyHandler` and the handler's
`get`/`set` are implemented in `pkg/provisioners/swappable`, which is not
under `src/`; the model follows spec §4.1: the handler owns the current
snapshot, `get` returns the most recently published table (initially the
empty table), `set` atomically replaces the whole snapshot. -/

/-- Modelled from the spec: SwappableRoutingHandler — holds the currently
published routing-table snapshot (spec §2, §4.1). -/
structure Handler where
  current : RoutingTable
  deriving DecidableEq

/-- Modelled from the spec: construction always yields a handler whose
`get()` returns a valid empty table (spec §4.1); `NewEmptyHandler` in the
source returns `(handler, err)` and `main` treats a non-nil error as
fatal, but construction of the empty handler itself always succeeds. -/
def NewEmptyHandler : Handler := ⟨RoutingTable.empty⟩

/-- Modelled from the spec: `get() -> RoutingTable` never blocks, never
fails, returns the most recently published table (spec §4.1). -/
def Handler.get (h : Handler) : RoutingTable := h.current

/-- Modelled from the spec: `set(table)` atomically publishes `table` as
the new current snapshot, whole-value replacement (spec §4.1). -/
def Handler.set (_h : Handler) (t : RoutingTable) : Handler := ⟨t⟩

/-- Apply a sequence of atomic `set` operations to a handler.  Because
each `set` is an atomic whole-value replacement (spec §5), any
interleaving of `set` calls from concurrent callers is some such
sequence, and a concurrent `get` linearizes after some prefix of it. -/
def Handler.applySets (h : Handler) (ts : List RoutingTable) : Handler :=
  ts.foldl Handler.set h

/-! ## Reconciliation controller accumulation

Modelled from the spec: `inmemorychannel.NewController` (the
reconciliation controller) is not under `src/`; spec §4.4 says it
maintains an accumulation of known channel definitions keyed by channel
identifier, where Added/Updated overwrite the same key and Deleted
removes it, and the full routing table is recomputed from the
accumulation on every event. -/

/-- Modelled from the spec: a watch event tagged Added/Updated/Deleted,
carrying a channel identifier and its definition payload (or just the
identifier, for Deleted) (spec §3, WatchEvent). -/
inductive WatchEvent where
  | added (key : String) (cfg : SubscriberConfig)
  | updated (key : String) (cfg : SubscriberConfig)
  | deleted (key : String)
  deriving DecidableEq, Repr

/-- Insert-or-overwrite by channel key: the accumulation is keyed by
channel identifier and Added/Updated overwrite the same key (spec §4.4). -/
def upsert (k : String) (v : SubscriberConfig) : RoutingTable → RoutingTable
  | [] => [(k, v)]
  | (k', v') :: rest =>
      if k' = k then (k, v) :: rest else (k', v') :: upsert k v rest

/-- Remove a channel key from the accumulation (Deleted removes it,
spec §4.4). -/
def removeKey (k : String) (t : RoutingTable) : RoutingTable :=
  t.filter (fun e => e.1 ≠ k)

/-- Modelled from the spec: on every event the controller updates its
keyed accumulation and recomputes the full routing table from it
(spec §4.4).  Here the accumulation is the table. -/
def processEvent (acc : RoutingTable) : WatchEvent → RoutingTable
  | .added k v => upsert k v acc
  | .updated k v => upsert k v acc
  | .deleted k => removeKey k acc

/-! ## Command-line flags and endpoint configuration

From `main.go` lines 40-48: the flag variables `hardcodedLoggingConfig`,
`masterURL`, `kubeconfig`, and the package-level variables `readTimeout`,
`writeTimeout`, `port`. -/

/-- The three command-line flags declared in `main.go` (lines 41-43). -/
structure Flags where
  hardcodedLoggingConfig : Bool
  masterURL : String
  kubeconfig : String
  deriving DecidableEq, Repr

/-- `readTimeout = 1 * time.Minute`, in nanoseconds (Go `time.Duration`). -/
def readTimeout : Nat := 1 * (60 * 1000000000)

/-- `writeTimeout = 1 * time.Minute`, in nanoseconds. -/
def writeTimeout : Nat := 1 * (60 * 1000000000)

/-- `port = 8080`. -/
def port : Nat := 8080

/-- `dispatcher.InMemoryDispatcherArgs` as constructed by `main`
(lines 68-75); the `Logger` field is an external collaborator and is
omitted, the swappable handler binding is kept. -/
structure InMemoryDispatcherArgs where
  Port : Nat
  ReadTimeout : Nat
  WriteTimeout : Nat
  handler : Handler
  deriving DecidableEq

/-- The dispatcher arguments `main` builds, as a function of the parsed
command-line flags and the swappable handler: `Port: port, ReadTimeout:
readTimeout, WriteTimeout: writeTimeout, Handler: sh` (lines 68-74).
The package-level values are used directly; no flag feeds into them. -/
def dispatcherArgs (_fl : Flags) (sh : Handler) : InMemoryDispatcherArgs :=
  { Port := port, ReadTimeout := readTimeout, WriteTimeout := writeTimeout,
    handler := sh }

/-! ## Client rate limits (lines 80-83) -/

/-- `const numControllers = 1` (line 80). -/
def numControllers : Nat := 1

/-- `rest.DefaultQPS` is the float32 constant `5.0`; it and its integer
multiples here are exact, so it is modelled as the natural number 5. -/
def DefaultQPS : Nat := 5

/-- `rest.DefaultBurst = 10`. -/
def DefaultBurst : Nat := 10

/-- The fields of `rest.Config` that `main` mutates (QPS modelled as a
natural number, see `DefaultQPS`). -/
structure RestConfig where
  qps : Nat
  burst : Nat
  deriving DecidableEq, Repr

/-- Lines 81-82: `cfg.QPS = numControllers * rest.DefaultQPS` and
`cfg.Burst = numControllers * rest.DefaultBurst`, performed on the
kubeconfig-derived client config before `reconciler.NewOptionsOrDie`. -/
def configureRateLimits (cfg : RestConfig) : RestConfig :=
  { cfg with qps := numControllers * DefaultQPS,
             burst := numControllers * DefaultBurst }

/-! ## Compile-time controller-count assertion (lines 93-105)

`controllers` is the array literal with exactly one element
(`inmemorychannel.NewController(...)`), and line 105 is
`var _ [numControllers - len(controllers)][len(controllers) - numControllers]int`:
a Go array type with a negative constant length is a compile error, so
the declaration compiles iff both differences are non-negative, i.e. iff
the counts are equal. -/

/-- The length of the `controllers` array literal in `main` (one
element: the inmemorychannel dispatcher controller). -/
def controllersLength : Nat := 1

/-- A Go constant array length is legal iff it is non-negative. -/
def arrayLenOK (n : Int) : Bool := decide (0 ≤ n)

/-- Line 105: the program compiles iff both `declared - actual` and
`actual - declared` are legal array lengths. -/
def controllerCountAssert (declared actual : Int) : Bool :=
  arrayLenOK (declared - actual) && arrayLenOK (actual - declared)

/-! ## The `main` control flow as an event trace

Each event records the successful completion of the corresponding step
of `main` (lines 50-137), in source order; `fatalExit m` records the
process logging `m` and exiting with a non-zero status (the behavior of
`logger.Fatalw` / `logger.Fatal` / `logger.Fatalf`), after which nothing
further executes. -/

/-- The observable steps of `main`, in source order. -/
inductive Event where
  /-- `flag.Parse()` (line 51). -/
  | flagParse
  /-- `setupLogger()` (line 52). -/
  | setupLoggerDone
  /-- `signals.SetupSignalHandler()` (line 56). -/
  | setupSignalHandler
  /-- `clientcmd.BuildConfigFromFlags` succeeded (line 58). -/
  | buildKubeconfig
  /-- `swappable.NewEmptyHandler` succeeded (line 63). -/
  | newEmptyHandler
  /-- `dispatcher.NewDispatcher(args)` with the handler bound (line 76). -/
  | newDispatcher
  /-- `cfg.QPS` / `cfg.Burst` assignment (lines 81-82). -/
  | setRateLimits
  /-- `reconciler.NewOptionsOrDie` returned (line 83). -/
  | newOptions
  /-- `informers.NewSharedInformerFactory` (line 85). -/
  | newInformerFactory
  /-- construction of the informer and the `controllers` array (lines 88-99). -/
  | newControllers
  /-- `opt.ConfigMapWatcher.Watch(logconfig.ConfigMapName(), ...)` (line 108). -/
  | watchLoggingConfigMap
  /-- `tracing.SetupDynamicZipkinPublishing` succeeded (line 113). -/
  | setupZipkin
  /-- `opt.ConfigMapWatcher.Start(stopCh)` succeeded (line 117). -/
  | configWatcherStart
  /-- `kncontroller.StartInformers` returned nil: informers started and
  their initial cache sync completed (lines 123-129). -/
  | startInformers
  /-- `go inMemoryDispatcher.Start(stopCh)` (line 131). -/
  | dispatcherStart
  /-- `kncontroller.StartAll(stopCh, controllers[:]...)` returned: the
  stop signal fired and every registered controller returned from its
  run loop (line 134). -/
  | startAllReturned
  /-- `inMemoryDispatcher.Stop()` (line 136). -/
  | dispatcherStop
  /-- the process logged `msg` and exited with a non-zero status. -/
  | fatalExit (msg : String)
  deriving DecidableEq, Repr

/-- Whether an event is a fatal exit. -/
def Event.isFatal : Event → Bool
  | .fatalExit _ => true
  | _ => false

/-- The environment of `main`: the outcome of each fallible collaborator
call, `some msg` meaning the call fails with error message `msg`. -/
structure MainEnv where
  /-- `clientcmd.BuildConfigFromFlags` (line 58). -/
  buildConfigErr : Option String
  /-- `swappable.NewEmptyHandler` (line 63). -/
  newHandlerErr : Option String
  /-- `reconciler.NewOptionsOrDie` dying (line 83). -/
  newOptionsDie : Option String
  /-- `tracing.SetupDynamicZipkinPublishing` (line 113). -/
  zipkinErr : Option String
  /-- `opt.ConfigMapWatcher.Start` (line 117). -/
  watcherStartErr : Option String
  /-- `kncontroller.StartInformers` (line 123). -/
  startInformersErr : Option String
  deriving DecidableEq, Repr

/-- The trace of one execution of `main` (lines 50-137) in the given
environment: steps complete in source order until the first failing
call, which becomes a `fatalExit`; with no failure the run proceeds
through informer sync, starts the dispatcher, blocks in `StartAll`
until shutdown and drain, then stops the dispatcher. -/
def mainTrace (env : MainEnv) : List Event :=
  Event.flagParse :: Event.setupLoggerDone :: Event.setupSignalHandler ::
  match env.buildConfigErr with
  | some m => [Event.fatalExit m]
  | none => Event.buildKubeconfig ::
    match env.newHandlerErr with
    | some m => [Event.fatalExit m]
    | none => Event.newEmptyHandler :: Event.newDispatcher ::
        Event.setRateLimits ::
      match env.newOptionsDie with
      | some m => [Event.fatalExit m]
      | none => Event.newOptions :: Event.newInformerFactory ::
          Event.newControllers :: Event.watchLoggingConfigMap ::
        match env.zipkinErr with
        | some m => [Event.fatalExit m]
        | none => Event.setupZipkin ::
          match env.watcherStartErr with
          | some m => [Event.fatalExit m]
          | none => Event.configWatcherStart ::
            match env.startInformersErr with
            | some m => [Event.fatalExit m]
            | none => [Event.startInformers, Event.dispatcherStart,
                       Event.startAllReturned, Event.dispatcherStop]

/-- The process exit status: 1 when the run ended in a fatal exit
(`log.Fatal*` / `logger.Fatal*` exit non-zero), 0 otherwise. -/
def mainExitCode (env : MainEnv) : Nat :=
  if (mainTrace env).any Event.isFatal then 1 else 0

/-- The whole program as produced by the Go compiler: it exists only
when the compile-time controller-count assertion of line 105 holds;
otherwise compilation fails and no execution (hence no open network
endpoint) ever happens. -/
def compiledProgram (declared actual : Int) :
    Option (MainEnv → List Event) :=
  if controllerCountAssert declared actual then some mainTrace else none

/-! ## Logging configuration selection (lines 139-181) -/

/-- The `zap-logger-config` value of the hardcoded map: the Go raw
string literal of lines 154-172 (newlines and tabs as in the source;
note the source string itself never closes the inner `encoderConfig`
object). -/
def zapLoggerConfigJSON : String :=
  "\n\t\t\t\t\x7b\n\t\t\t\t\t\"level\": \"info\",\n\t\t\t\t\t\"development\": false,\n\t\t\t\t\t\"outputPaths\": [\"stdout\"],\n\t\t\t\t\t\"errorOutputPaths\": [\"stderr\"],\n\t\t\t\t\t\"encoding\": \"json\",\n\t\t\t\t\t\"encoderConfig\": \x7b\n\t\t\t\t\t\"timeKey\": \"ts\",\n\t\t\t\t\t\"levelKey\": \"level\",\n\t\t\t\t\t\"nameKey\": \"logger\",\n\t\t\t\t\t\"callerKey\": \"caller\",\n\t\t\t\t\t\"messageKey\": \"msg\",\n\t\t\t\t\t\"stacktraceKey\": \"stacktrace\",\n\t\t\t\t\t\"lineEnding\": \"\",\n\t\t\t\t\t\"levelEncoder\": \"\",\n\t\t\t\t\t\"timeEncoder\": \"iso8601\",\n\t\t\t\t\t\"durationEncoder\": \"\",\n\t\t\t\t\t\"callerEncoder\": \"\"\n\t\t\t\t\x7d"

/-- A Go `map[string]string` configuration map, as an association list. -/
def ConfigMap := List (String × String)
  deriving DecidableEq

/-- The hardcoded logging configuration map returned when the
`hardCodedLoggingConfig` flag is set and true (lines 150-173). -/
def hardcodedLoggingConfigMap : ConfigMap :=
  [("loglevel.controller", "info"),
   ("zap-logger-config", zapLoggerConfigJSON)]

/-- The outcome of a function that either produces a value or kills the
process via `log.Fatalf` with a message. -/
inductive OrDie (α : Type) where
  | ok (a : α)
  | fatal (msg : String)
  deriving DecidableEq

/-- The external collaborators of `setupLogger` /
`getLoggingConfigOrDie`: the flag pointer (`nil` or its value), the
outcome of `configmap.Load` per path, and the error of
`logging.NewConfigFromMap` per map (`none` = parses fine). -/
structure LoggingEnv where
  /-- the `*bool` returned by `flag.Bool`: `none` models a nil pointer. -/
  hardcodedFlag : Option Bool
  /-- `configmap.Load path` for each path. -/
  load : String → Except String ConfigMap
  /-- the error `logging.NewConfigFromMap` reports on a map, if any. -/
  parseError : ConfigMap → Option String

/-- `getLoggingConfigOrDie` (lines 149-181): the hardcoded map when the
flag pointer is non-nil and true; otherwise
`configmap.Load("/etc/config-logging")`, whose failure is fatal. -/
def getLoggingConfigOrDie (env : LoggingEnv) : OrDie ConfigMap :=
  match env.hardcodedFlag with
  | some true => .ok hardcodedLoggingConfigMap
  | _ =>
    match env.load "/etc/config-logging" with
    | .ok cm => .ok cm
    | .error e => .fatal ("Error loading logging configuration: " ++ e)

/-- `setupLogger` (lines 139-147): obtains the map via
`getLoggingConfigOrDie`, then parses it with `logging.NewConfigFromMap`;
a parse failure is fatal.  The constructed logger is represented by the
successfully parsed map. -/
def setupLogger (env : LoggingEnv) : OrDie ConfigMap :=
  match getLoggingConfigOrDie env with
  | .fatal m => .fatal m
  | .ok cm =>
    match env.parseError cm with
    | some e => .fatal ("Error parsing logging configuration: " ++ e)
    | none => .ok cm

/-! ## Helper notions and lemmas -/

/-- `a` occurs in `t` strictly before the first occurrence of `b`. -/
def precedes (a b : Event) (t : List Event) : Prop :=
  b ∈ t ∧ a ∈ t.takeWhile (fun e => !(e == b))

instance (a b : Event) (t : List Event) : Decidable (precedes a b t) :=
  inferInstanceAs (Decidable (_ ∧ _))

/-- The trace of a failure-free run of `main`. -/
def successTrace : List Event :=
  [Event.flagParse, Event.setupLoggerDone, Event.setupSignalHandler,
   Event.buildKubeconfig, Event.newEmptyHandler, Event.newDispatcher,
   Event.setRateLimits, Event.newOptions, Event.newInformerFactory,
   Event.newControllers, Event.watchLoggingConfigMap, Event.setupZipkin,
   Event.configWatcherStart, Event.startInformers, Event.dispatcherStart,
   Event.startAllReturned, Event.dispatcherStop]

theorem Handler.get_set (h : Handler) (t : RoutingTable) :
    (h.set t).get = t := rfl

theorem Handler.get_applySets (h : Handler) (ts : List RoutingTable) :
    (h.applySets ts).get = ts.getLastD h.get := by
  induction ts generalizing h with
  | nil => rfl
  | cons t ts ih =>
      show (Handler.applySets (h.set t) ts).get = _
      rw [ih, Handler.get_set, List.getLastD_cons]

theorem upsert_idem (k : String) (v : SubscriberConfig) (t : RoutingTable) :
    upsert k v (upsert k v t) = upsert k v t := by
  induction t with
  | nil => simp [upsert]
  | cons e rest ih =>
      obtain ⟨k', v'⟩ := e
      by_cases hk : k' = k
      · subst hk
        simp [upsert]
      · simp [upsert, hk, ih]

/-- Any trace containing `dispatcherStart` or `dispatcherStop` is the
failure-free trace: every fatal exit truncates the run before either. -/
theorem mainTrace_eq_success (env : MainEnv) :
    (Event.dispatcherStart ∈ mainTrace env → mainTrace env = successTrace) ∧
    (Event.dispatcherStop ∈ mainTrace env → mainTrace env = successTrace) := by
  obtain ⟨b, n, o, z, w, i⟩ := env
  cases b <;> cases n <;> cases o <;> cases z <;> cases w <;> cases i <;>
    constructor <;> intro h <;>
      first
        | rfl
        | simp [mainTrace, successTrace] at h

/-! ## Claims C4, C5, C6: handler contract and reconciliation -/

/-- C4: for the swappable routing handler constructed by `main` via
`swappable.NewEmptyHandler`, `get()` called immediately after
construction and before any `set` returns a routing table with zero
channel entries — a valid value, not an error. -/
theorem newEmptyHandler_get_empty :
    NewEmptyHandler.get = RoutingTable.empty ∧
    NewEmptyHandler.get.numChannels = 0 := by
  exact ⟨rfl, rfl⟩

/-- C5: for every sequence of atomic `set(T1), ..., set(Tn)` calls
(any interleaving of concurrent callers is such a sequence), a `get()`
linearized after any prefix of them returns a table that was actually
published — the initial empty table or some `Ti` of that prefix, never
a torn value — and a `get()` after all `set` calls complete returns the
last table published. -/
theorem handler_linearizable (sets : List RoutingTable) (k : Nat) :
    (Handler.applySets NewEmptyHandler (sets.take k)).get ∈
      RoutingTable.empty :: sets.take k ∧
    (sets ≠ [] →
      (Handler.applySets NewEmptyHandler sets).get =
        sets.getLastD RoutingTable.empty) := by
  constructor
  · rw [Handler.get_applySets]
    exact List.getLastD_mem_cons _ _
  · intro _
    rw [Handler.get_applySets]
    rfl

/-- Closed witness for C5: two published tables, a get after the first
of them sees it, and the final get sees the last. -/
theorem handler_linearizable_witness :
    ([[(("a" : String), SubscriberConfig.mk ["e1"])]] ≠
        ([] : List RoutingTable)) ∧
    ((Handler.applySets NewEmptyHandler
        ([[("a", SubscriberConfig.mk ["e1"])]].take 1)).get ∈
      RoutingTable.empty :: [[("a", SubscriberConfig.mk ["e1"])]].take 1 ∧
     ([[("a", SubscriberConfig.mk ["e1"])]] ≠ ([] : List RoutingTable) →
      (Handler.applySets NewEmptyHandler
          [[("a", SubscriberConfig.mk ["e1"])]]).get =
        [[("a", SubscriberConfig.mk ["e1"])]].getLastD RoutingTable.empty)) :=
  ⟨by decide, handler_linearizable [[("a", SubscriberConfig.mk ["e1"])]] 1⟩

/-- C6: processing the same Added watch event twice from any accumulated
state of the reconciliation controller yields the same routing table as
processing it once. -/
theorem processEvent_added_idem (acc : RoutingTable) (k : String)
    (v : SubscriberConfig) :
    processEvent (processEvent acc (.added k v)) (.added k v) =
      processEvent acc (.added k v) := by
  simp [processEvent, upsert_idem]

/-! ## Claims C1, C2: startup and shutdown ordering -/

/-- The all-successful environment: every collaborator call succeeds. -/
def envOK : MainEnv := ⟨none, none, none, none, none, none⟩

/-- An environment where kubeconfig construction fails. -/
def envKubeconfigFail : MainEnv :=
  ⟨some "error building kubeconfig", none, none, none, none, none⟩

/-- C1: in every execution of `main`, the swappable handler is
constructed before the dispatcher service (which is bound to it), then
the controllers are constructed, then the config-map watcher is
started, then the informers are started and synced, and only after that
is the dispatcher's `Start` invoked — so no request is served before
the initial channel universe is known. -/
theorem startup_ordering (env : MainEnv)
    (h : Event.dispatcherStart ∈ mainTrace env) :
    precedes Event.newEmptyHandler Event.newDispatcher (mainTrace env) ∧
    precedes Event.newDispatcher Event.newControllers (mainTrace env) ∧
    precedes Event.newControllers Event.configWatcherStart (mainTrace env) ∧
    precedes Event.configWatcherStart Event.startInformers (mainTrace env) ∧
    precedes Event.startInformers Event.dispatcherStart (mainTrace env) := by
  rw [(mainTrace_eq_success env).1 h]
  decide

/-- Closed witness for C1 at the all-successful environment. -/
theorem startup_ordering_witness :
    Event.dispatcherStart ∈ mainTrace envOK ∧
    (precedes Event.newEmptyHandler Event.newDispatcher (mainTrace envOK) ∧
     precedes Event.newDispatcher Event.newControllers (mainTrace envOK) ∧
     precedes Event.newControllers Event.configWatcherStart (mainTrace envOK) ∧
     precedes Event.configWatcherStart Event.startInformers (mainTrace envOK) ∧
     precedes Event.startInformers Event.dispatcherStart (mainTrace envOK)) :=
  ⟨by decide, startup_ordering envOK (by decide)⟩

/-- C2: in every execution of `main`, `inMemoryDispatcher.Stop()` is
invoked only after `kncontroller.StartAll` has returned, i.e. strictly
after every registered controller has observed the stop signal and
returned from its run loop. -/
theorem shutdown_ordering (env : MainEnv)
    (h : Event.dispatcherStop ∈ mainTrace env) :
    precedes Event.startAllReturned Event.dispatcherStop (mainTrace env) := by
  rw [(mainTrace_eq_success env).2 h]
  decide

/-- Closed witness for C2 at the all-successful environment. -/
theorem shutdown_ordering_witness :
    Event.dispatcherStop ∈ mainTrace envOK ∧
    precedes Event.startAllReturned Event.dispatcherStop (mainTrace envOK) :=
  ⟨by decide, shutdown_ordering envOK (by decide)⟩

/-! ## Claim C3: structural controller-count invariant -/

/-- C3: a controller list whose length differs from the declared
expected count fails the compile-time assertion of line 105 — the
program does not exist, so no execution and no network endpoint ever
happens — and in this program the declared count is 1, the list has
exactly one element, and the assertion holds. -/
theorem controller_count_invariant (declared actual : Int)
    (h : declared ≠ actual) :
    compiledProgram declared actual = none ∧
    compiledProgram numControllers controllersLength = some mainTrace ∧
    controllerCountAssert numControllers controllersLength = true := by
  have hF : controllerCountAssert declared actual = false := by
    simp only [controllerCountAssert, arrayLenOK, Bool.and_eq_true,
      decide_eq_true_eq, Bool.eq_false_iff, ne_eq, not_and, not_le]
    intro h1
    omega
  refine ⟨by simp [compiledProgram, hF], rfl, by decide⟩

/-- Closed witness for C3: declared 2 vs actual 1 fails; the real
program's counts (1 and 1) pass. -/
theorem controller_count_invariant_witness :
    ((2 : Int) ≠ 1) ∧
    (compiledProgram 2 1 = none ∧
     compiledProgram numControllers controllersLength = some mainTrace ∧
     controllerCountAssert numControllers controllersLength = true) :=
  ⟨by decide, controller_count_invariant 2 1 (by decide)⟩

/-! ## Claim C7: fatal startup conditions -/

/-- C7: if kubeconfig construction, swappable-handler creation, Zipkin
tracing setup, the config-map watcher start, or the informer
start-and-sync fails, the process logs the cause and exits with a
non-zero status, the run ends at that fatal log, and the dispatcher is
never started — no traffic is served. -/
theorem fatal_startup_conditions (env : MainEnv)
    (h : env.buildConfigErr.isSome ∨ env.newHandlerErr.isSome ∨
         env.zipkinErr.isSome ∨ env.watcherStartErr.isSome ∨
         env.startInformersErr.isSome) :
    mainExitCode env = 1 ∧
    (mainTrace env).any Event.isFatal = true ∧
    Event.isFatal ((mainTrace env).getLastD Event.flagParse) = true ∧
    Event.dispatcherStart ∉ mainTrace env := by
  obtain ⟨b, n, o, z, w, i⟩ := env
  cases b <;> cases n <;> cases o <;> cases z <;> cases w <;> cases i <;>
    simp_all [mainTrace, mainExitCode, Event.isFatal,
      List.getLastD_cons, List.getLastD_nil]

/-- Closed witness for C7: kubeconfig construction fails. -/
theorem fatal_startup_conditions_witness :
    (envKubeconfigFail.buildConfigErr.isSome ∨
     envKubeconfigFail.newHandlerErr.isSome ∨
     envKubeconfigFail.zipkinErr.isSome ∨
     envKubeconfigFail.watcherStartErr.isSome ∨
     envKubeconfigFail.startInformersErr.isSome) ∧
    (mainExitCode envKubeconfigFail = 1 ∧
     (mainTrace envKubeconfigFail).any Event.isFatal = true ∧
     Event.isFatal
       ((mainTrace envKubeconfigFail).getLastD Event.flagParse) = true ∧
     Event.dispatcherStart ∉ mainTrace envKubeconfigFail) :=
  ⟨by decide, fatal_startup_conditions envKubeconfigFail (by decide)⟩

/-! ## Claim C8: logging-configuration selection -/

/-- A logging environment where the hardcoded-config flag is true. -/
def envLogHardcoded : LoggingEnv :=
  ⟨some true, fun _ => Except.error "unused", fun _ => none⟩

/-- A logging environment where the flag is unset, the external load
succeeds, and parsing the loaded map fails. -/
def envLogParseFail : LoggingEnv :=
  ⟨none, fun _ => Except.ok [("zap-logger-config", "not json")],
   fun _ => some "invalid"⟩

/-- C8: `getLoggingConfigOrDie` returns the hardcoded map exactly when
the flag pointer is set and true; otherwise it loads
`/etc/config-logging`, whose failure is fatal; and a parse failure of
the obtained map makes `setupLogger` fatal rather than falling back. -/
theorem logging_config_selection (env : LoggingEnv) :
    (env.hardcodedFlag = some true →
      getLoggingConfigOrDie env = .ok hardcodedLoggingConfigMap) ∧
    (env.hardcodedFlag ≠ some true →
      (∀ cm, env.load "/etc/config-logging" = .ok cm →
        getLoggingConfigOrDie env = .ok cm) ∧
      (∀ e, env.load "/etc/config-logging" = .error e →
        getLoggingConfigOrDie env =
          .fatal ("Error loading logging configuration: " ++ e))) ∧
    (∀ cm e, getLoggingConfigOrDie env = .ok cm →
      env.parseError cm = some e →
      setupLogger env = .fatal ("Error parsing logging configuration: " ++ e)) := by
  refine ⟨fun hf => by simp [getLoggingConfigOrDie, hf], fun hf => ?_, ?_⟩
  · cases hflag : env.hardcodedFlag with
    | none =>
        exact ⟨fun cm hl => by simp [getLoggingConfigOrDie, hflag, hl],
               fun e hl => by simp [getLoggingConfigOrDie, hflag, hl]⟩
    | some b =>
        cases b with
        | false =>
            exact ⟨fun cm hl => by simp [getLoggingConfigOrDie, hflag, hl],
                   fun e hl => by simp [getLoggingConfigOrDie, hflag, hl]⟩
        | true => exact absurd hflag hf
  · intro cm e hok hperr
    simp [setupLogger, hok, hperr]

/-- Closed witness for C8: the flag selects the hardcoded map, and a
parse failure of an externally-loaded map is fatal. -/
theorem logging_config_selection_witness :
    getLoggingConfigOrDie envLogHardcoded = .ok hardcodedLoggingConfigMap ∧
    setupLogger envLogParseFail =
      .fatal ("Error parsing logging configuration: " ++ "invalid") :=
  ⟨(logging_config_selection envLogHardcoded).1 rfl,
   (logging_config_selection envLogParseFail).2.2
     [("zap-logger-config", "not json")] "invalid" rfl rfl⟩

/-! ## Claim C9: endpoint configuration values

The dispatcher is constructed with `port = 8080` and one-minute read
and write timeouts, but these are fixed package-level variables of
`main.go` (lines 45-47): no command-line flag or other input of the
program feeds into them, so they are not configurable.  The
counterexample shows that changing every command-line input leaves the
endpoint configuration identical. -/

/-- C9 counterexample: two flag assignments differing in every
command-line input produce identical dispatcher arguments — port and
timeouts cannot be configured — refuting the claim that the three
endpoint values are configurable. -/
theorem dispatcher_config_not_configurable :
    dispatcherArgs ⟨true, "https://master.example", "/tmp/kubeconfig"⟩
        NewEmptyHandler =
      dispatcherArgs ⟨false, "", ""⟩ NewEmptyHandler ∧
    (dispatcherArgs ⟨true, "https://master.example", "/tmp/kubeconfig"⟩
        NewEmptyHandler).Port = 8080 ∧
    (dispatcherArgs ⟨true, "https://master.example", "/tmp/kubeconfig"⟩
        NewEmptyHandler).ReadTimeout = 60 * 1000000000 ∧
    (dispatcherArgs ⟨true, "https://master.example", "/tmp/kubeconfig"⟩
        NewEmptyHandler).WriteTimeout = 60 * 1000000000 :=
  ⟨rfl, rfl, rfl, rfl⟩

/-- C9 (amended): the dispatcher service is constructed with service
port 8080 and read/write timeouts of one minute each, bound to the
swappable handler; these values are fixed package-level variables,
identical under every flag assignment — not configurable. -/
theorem dispatcher_config_fixed (fl fl' : Flags) (sh : Handler) :
    dispatcherArgs fl sh =
      { Port := 8080, ReadTimeout := 60 * 1000000000,
        WriteTimeout := 60 * 1000000000, handler := sh } ∧
    dispatcherArgs fl sh = dispatcherArgs fl' sh :=
  ⟨rfl, rfl⟩

/-! ## Claim C10: client rate-limit scaling -/

/-- C10: `main` sets the cluster client's QPS to
`numControllers * rest.DefaultQPS` and its Burst to
`numControllers * rest.DefaultBurst` — here exactly 1x the defaults —
and does so strictly before constructing the reconciler options. -/
theorem rate_limit_scaling (cfg : RestConfig) (env : MainEnv)
    (h : Event.newOptions ∈ mainTrace env) :
    (configureRateLimits cfg).qps = numControllers * DefaultQPS ∧
    (configureRateLimits cfg).burst = numControllers * DefaultBurst ∧
    (configureRateLimits cfg).qps = DefaultQPS ∧
    (configureRateLimits cfg).burst = DefaultBurst ∧
    precedes Event.setRateLimits Event.newOptions (mainTrace env) := by
  refine ⟨rfl, rfl, rfl, rfl, ?_⟩
  obtain ⟨b, n, o, z, w, i⟩ := env
  cases b <;> cases n <;> cases o <;> cases z <;> cases w <;> cases i <;>
    first
      | exact of_decide_eq_true rfl
      | simp [mainTrace] at h

/-- Closed witness for C10 at the all-successful environment. -/
theorem rate_limit_scaling_witness :
    Event.newOptions ∈ mainTrace envOK ∧
    ((configureRateLimits ⟨0, 0⟩).qps = numControllers * DefaultQPS ∧
     (configureRateLimits ⟨0, 0⟩).burst = numControllers * DefaultBurst ∧
     (configureRateLimits ⟨0, 0⟩).qps = DefaultQPS ∧
     (configureRateLimits ⟨0, 0⟩).burst = DefaultBurst ∧
     precedes Event.setRateLimits Event.newOptions (mainTrace envOK)) :=
  ⟨by decide, rate_limit_scaling ⟨0, 0⟩ envOK (by decide)⟩

end ChannelDispatcher
